import Mathlib

/-!
Shallow embedding of the cdk-nest-docker repository: the CDK stacks
(ECSEnvironmentStack, ApplicationStack, ImageBuilderStack, PipelineStack)
are modelled as pure functions from their props to static configuration
records, mirroring the constructor bodies in the TypeScript source.  The
few pieces of runtime behaviour the stacks generate (the printf command
writing imagedefinitions.json, the bash if-chain computing ENV_TAG) are
given an executable semantics here.
-/

namespace CdkNestDocker

/-! ### printf semantics

The build stage of every deploy pipeline runs a shell command of the form
`printf FORMAT ARG > imagedefinitions.json`.  We model POSIX printf with a
single argument: the first `%s` conversion is replaced by the argument and
any later `%s` conversion by the empty string (printf substitutes an empty
string for a missing argument and does not rescan substituted text). -/

def printfAux (arg : List Char) : List Char → List Char
  | [] => []
  | [c] => [c]
  | c :: c2 :: rest =>
    if c = '%' ∧ c2 = 's' then arg ++ printfAux [] rest
    else c :: printfAux arg (c2 :: rest)

/-- Output of `printf fmt arg` for a single-argument printf invocation. -/
def printfRun (fmt arg : String) : String :=
  ⟨printfAux arg.data fmt.data⟩

/-! ### The imagedefinitions.json manifest -/

/-- One entry of the imagedefinitions.json manifest consumed by the ECS
deploy action. -/
structure ImageDefinition where
  name : String
  imageUri : String
deriving Repr, DecidableEq

/-- JSON rendering of one manifest entry. -/
def renderImageDefinition (e : ImageDefinition) : String :=
  "\x7b\"name\":\"" ++ e.name ++ "\",\"imageUri\":\"" ++ e.imageUri ++ "\"\x7d"

/-- Comma-separated rendering of the entries of a manifest. -/
def renderImageDefinitionsBody : List ImageDefinition → String
  | [] => ""
  | [e] => renderImageDefinition e
  | e :: rest => renderImageDefinition e ++ "," ++ renderImageDefinitionsBody rest

/-- JSON rendering of a manifest: an array of entries. -/
def renderImageDefinitions (l : List ImageDefinition) : String :=
  "[" ++ renderImageDefinitionsBody l ++ "]"

/-- The printf format literal used by the generated post_build command
(the single-quoted section of the command), with the container name
interpolated exactly as in the source template string:
`[{"name":"<containerName>","imageUri":"%s"}]`. -/
def imageDefinitionsFormat (containerName : String) : String :=
  "[\x7b\"name\":\"" ++ containerName ++ "\",\"imageUri\":\"%s\"\x7d]"

/-- The full post_build command generated by both ECSEnvironmentStack and
ApplicationStack: `printf FORMAT $ECR_REPO_URI:<tagExpr> > imagedefinitions.json`
where `tagExpr` is the stack's image tag (the literal `latest` in
ApplicationStack). -/
def manifestPrintfCommand (containerName tagExpr : String) : String :=
  "printf \x27" ++ imageDefinitionsFormat containerName ++
    "\x27 $ECR_REPO_URI:" ++ tagExpr ++ " > imagedefinitions.json"

/-- Content written to imagedefinitions.json when the generated command
runs, given the runtime value of the ECR_REPO_URI environment variable
(CodeBuild sets it to the ECR repository URI). -/
def manifestFileContent (containerName tagExpr ecrRepoUri : String) : String :=
  printfRun (imageDefinitionsFormat containerName) (ecrRepoUri ++ ":" ++ tagExpr)

/-! ### Supporting lemmas about printfAux -/

theorem printfAux_nil (arg : List Char) : printfAux arg [] = [] := rfl

theorem printfAux_cons_of_ne (arg : List Char) (c : Char) (rest : List Char)
    (hc : c ≠ '%') : printfAux arg (c :: rest) = c :: printfAux arg rest := by
  cases rest with
  | nil => rfl
  | cons c2 rest2 =>
    rw [printfAux, if_neg (fun hand => hc hand.1)]

theorem printfAux_append_of_not_mem (arg : List Char) (l r : List Char)
    (h : '%' ∉ l) : printfAux arg (l ++ r) = l ++ printfAux arg r := by
  induction l with
  | nil => rfl
  | cons c t ih =>
    have hc : c ≠ '%' := fun hc => h (hc ▸ List.mem_cons_self c t)
    have ht : '%' ∉ t := fun ht => h (List.mem_cons_of_mem c ht)
    rw [List.cons_append, printfAux_cons_of_ne arg c (t ++ r) hc, ih ht]
    rfl

theorem printfAux_of_not_mem (arg : List Char) (l : List Char)
    (h : '%' ∉ l) : printfAux arg l = l := by
  have h2 := printfAux_append_of_not_mem arg l [] h
  rw [List.append_nil] at h2
  rw [h2, printfAux_nil, List.append_nil]

theorem printfAux_subst (arg : List Char) (r : List Char) :
    printfAux arg ('%' :: 's' :: r) = arg ++ printfAux [] r := by
  rw [printfAux, if_pos ⟨rfl, rfl⟩]

/-! ### Configuration records for the environment stacks

These mirror, field by field, the constructor bodies of
ECSEnvironmentStack (lib/ecs-environment-stack) and ApplicationStack
(lib/application-stack). -/

inductive SubnetKind
  | publicSubnet
  | privateSubnet
deriving Repr, DecidableEq

structure VpcModel where
  cidr : Option String
  maxAzs : Nat
  natGateways : Nat
deriving Repr, DecidableEq

structure ScalingPolicyModel where
  targetUtilizationPercent : Nat
  scaleInCooldownSeconds : Nat
  scaleOutCooldownSeconds : Nat
deriving Repr, DecidableEq

structure ScalingBounds where
  minCapacity : Nat
  maxCapacity : Nat
deriving Repr, DecidableEq

/-- Capacity bounds produced by `service.autoScaleTaskCount`: both stacks
pass only `maxCapacity: 4`; the ecs library defaults the omitted
minCapacity to 1. -/
def autoScaleTaskCount (maxCap : Nat) : ScalingBounds :=
  { minCapacity := 1, maxCapacity := maxCap }

/-- Tag used by `ContainerImage.fromEcrRepository` when no tag argument is
given (ApplicationStack omits it): the library defaults to `latest`. -/
def defaultEcrImageTag : String := "latest"

structure ContainerModel where
  containerName : String
  imageRepositoryName : String
  imageTag : String
  memoryLimitMiB : Nat
  cpu : Nat
  containerPort : Nat
deriving Repr, DecidableEq

structure ServiceModel where
  serviceName : String
  publicLoadBalancer : Bool
  desiredCount : Nat
  listenerPort : Nat
  assignPublicIp : Bool
  taskSubnetKind : SubnetKind
deriving Repr, DecidableEq

structure StageModel where
  stageName : String
  actionNames : List String
deriving Repr, DecidableEq

structure PipelineModel where
  pipelineName : String
  crossAccountKeys : Bool
  restartExecutionOnUpdate : Bool
  stages : List StageModel
deriving Repr, DecidableEq

/-- Event pattern and target of the Rule wired to start the deploy
pipeline (the workaround rule both stacks create). -/
structure EcrTriggerRuleModel where
  eventSource : List String
  actionType : List String
  imageTag : List String
  repositoryName : List String
  result : List String
  targetPipelineName : String
deriving Repr, DecidableEq

structure EnvironmentStackModel where
  vpc : VpcModel
  clusterName : String
  container : ContainerModel
  service : ServiceModel
  scalingBounds : ScalingBounds
  cpuScaling : ScalingPolicyModel
  memoryScaling : ScalingPolicyModel
  ecrRepositoryName : String
  webhookBranch : Option String
  imageDefinitionsBuilderCommands : List String
  manifestTagExpr : String
  pipeline : PipelineModel
  trigger : EcrTriggerRuleModel
deriving Repr, DecidableEq

/-- Manifest file produced by the stack's build stage at runtime, given
the value CodeBuild put into ECR_REPO_URI (the repository URI). -/
def EnvironmentStackModel.manifestContent (s : EnvironmentStackModel)
    (ecrRepoUri : String) : String :=
  manifestFileContent s.container.containerName s.manifestTagExpr ecrRepoUri

structure ECSEnvironmentStackProps where
  appName : String
  imageTag : String
  ecrRepoName : String
  vpcCidr : String
deriving Repr, DecidableEq

def scaling70x60 : ScalingPolicyModel :=
  { targetUtilizationPercent := 70
    scaleInCooldownSeconds := 60
    scaleOutCooldownSeconds := 60 }

def deployStages : List StageModel :=
  [ { stageName := "Source", actionNames := ["EcrSource"] }
  , { stageName := "Build", actionNames := ["Build"] }
  , { stageName := "Deploy", actionNames := ["Deploy"] } ]

/-- Shallow embedding of the ECSEnvironmentStack constructor. -/
def ecsEnvironmentStack (props : ECSEnvironmentStackProps) : EnvironmentStackModel :=
  let appName := props.appName
  let imageTag := props.imageTag
  let clusterName := appName ++ "-" ++ imageTag ++ "-Cluster"
  let containerName := appName ++ "-" ++ imageTag ++ "-Container"
  let serviceName := appName ++ "-" ++ imageTag ++ "-Service"
  let pipelineName := serviceName ++ "-" ++ imageTag ++ "-DeployPipeline"
  { vpc := { cidr := some props.vpcCidr, maxAzs := 3, natGateways := 0 }
    clusterName := clusterName
    container :=
      { containerName := containerName
        imageRepositoryName := props.ecrRepoName
        imageTag := imageTag
        memoryLimitMiB := 512
        cpu := 256
        containerPort := 3000 }
    service :=
      { serviceName := serviceName
        publicLoadBalancer := true
        desiredCount := 1
        listenerPort := 80
        assignPublicIp := true
        taskSubnetKind := SubnetKind.publicSubnet }
    scalingBounds := autoScaleTaskCount 4
    cpuScaling := scaling70x60
    memoryScaling := scaling70x60
    ecrRepositoryName := props.ecrRepoName
    webhookBranch := none
    imageDefinitionsBuilderCommands :=
      [ "echo \"In Post-Build Stage\""
      , manifestPrintfCommand containerName imageTag
      , "pwd; ls -al; cat imagedefinitions.json" ]
    manifestTagExpr := imageTag
    pipeline :=
      { pipelineName := pipelineName
        crossAccountKeys := false
        restartExecutionOnUpdate := false
        stages := deployStages }
    trigger :=
      { eventSource := ["aws.ecr"]
        actionType := ["PUSH"]
        imageTag := [imageTag]
        repositoryName := [props.ecrRepoName]
        result := ["SUCCESS"]
        targetPipelineName := pipelineName } }

structure ApplicationStackProps where
  branchName : String
deriving Repr, DecidableEq

/-- Shallow embedding of the ApplicationStack constructor (the service,
pipeline and trigger half; the stack's build-project half matches
ImageBuilderStack with the single-branch mapping of its webhook). -/
def applicationStack (props : ApplicationStackProps) : EnvironmentStackModel :=
  let appName := "NestApp"
  let repoName := "nest-app"
  let clusterName := appName ++ "-Cluster"
  let containerName := appName ++ "-Container"
  let serviceName := appName ++ "-Service"
  let pipelineName := serviceName ++ "-DeployPipeline"
  { vpc := { cidr := none, maxAzs := 3, natGateways := 0 }
    clusterName := clusterName
    container :=
      { containerName := containerName
        imageRepositoryName := repoName
        imageTag := defaultEcrImageTag
        memoryLimitMiB := 512
        cpu := 256
        containerPort := 3000 }
    service :=
      { serviceName := serviceName
        publicLoadBalancer := true
        desiredCount := 1
        listenerPort := 80
        assignPublicIp := true
        taskSubnetKind := SubnetKind.publicSubnet }
    scalingBounds := autoScaleTaskCount 4
    cpuScaling := scaling70x60
    memoryScaling := scaling70x60
    ecrRepositoryName := repoName
    webhookBranch := some props.branchName
    imageDefinitionsBuilderCommands :=
      [ "echo \"In Post-Build Stage\""
      , manifestPrintfCommand containerName "latest"
      , "pwd; ls -al; cat imagedefinitions.json" ]
    manifestTagExpr := "latest"
    pipeline :=
      { pipelineName := pipelineName
        crossAccountKeys := false
        restartExecutionOnUpdate := false
        stages := deployStages }
    trigger :=
      { eventSource := ["aws.ecr"]
        actionType := ["PUSH"]
        imageTag := ["latest"]
        repositoryName := [repoName]
        result := ["SUCCESS"]
        targetPipelineName := pipelineName } }

/-! ### ImageBuilderStack -/

structure ImageBuilderStackProps where
  appName : String
  repoName : String
  branchMapping : List (String × String)
  gitOwner : String
  gitRepo : String
deriving Repr, DecidableEq

/-- One conditional of the generated pre_build if-chain, from the source
template: tests the branch against the pattern with the bash regex operator
and exports ENV_TAG to the mapped tag on match. -/
def envTagIfCommand (branchPattern tagName : String) : String :=
  "if [[ \"$CODEBUILD_GIT_BRANCH\" =~ " ++ branchPattern ++ " ]] ; then\n" ++
    "                   export ENV_TAG=" ++ tagName ++ ";\n" ++
    "                fi"

/-- Branch-name resolution command of the pre_build phase (symbolic-ref
lookup). -/
def exportGitBranchCommand : String :=
  "export CODEBUILD_GIT_BRANCH=\"$(git symbolic-ref HEAD --short 2>/dev/null)\""

/-- Detached-HEAD fallback of the pre_build phase (git-history lookup). -/
def gitBranchFallbackCommand : String :=
  "if [ \"$CODEBUILD_GIT_BRANCH\" = \"\" ] ; then\n" ++
    "                export CODEBUILD_GIT_BRANCH=\"$(git rev-parse HEAD | " ++
    "xargs git name-rev | cut -d\x27 \x27 -f2 | sed \x27s/remotes\\/origin\\///g\x27)\";\n" ++
    "              fi"

/-- Build-phase commands shared by ImageBuilderStack; the fourth command
tags the image with the environment tag resolved in pre_build. -/
def imageBuilderBuildCommands : List String :=
  [ "docker build --build-arg BUILD_NUMBER=$BUILD_NUMBER -t $IMAGE_NAME:$TAG ."
  , "docker tag $IMAGE_NAME:$TAG $ECR_REPO_URI:$TAG"
  , "docker tag $IMAGE_NAME:$TAG $ECR_REPO_URI:$BUILD_NUMBER"
  , "docker tag $IMAGE_NAME:$TAG $ECR_REPO_URI:$ENV_TAG"
  , "(aws ecr get-login-password | docker login --username AWS --password-stdin $ECR_REPO_URI)"
  , "docker push $ECR_REPO_URI " ]

structure ImageBuilderStackModel where
  ecrRepositoryName : String
  maxImageAgeDays : Nat
  webhookBranchPatterns : List String
  preBuildCommands : List String
  buildCommands : List String
deriving Repr, DecidableEq

/-- Shallow embedding of the ImageBuilderStack constructor.  The mapping is
carried as an association list in the iteration order of
`Object.entries(branchMapping)`. -/
def imageBuilderStack (props : ImageBuilderStackProps) : ImageBuilderStackModel :=
  { ecrRepositoryName := props.repoName
    maxImageAgeDays := 30
    webhookBranchPatterns := props.branchMapping.map Prod.fst
    preBuildCommands :=
      [ "export TAG=${CODEBUILD_RESOLVED_SOURCE_VERSION}"
      , "export BUILD_NUMBER=${CODEBUILD_BUILD_NUMBER}"
      , exportGitBranchCommand
      , gitBranchFallbackCommand ] ++
      props.branchMapping.map (fun e => envTagIfCommand e.1 e.2) ++
      ["env"]
    buildCommands := imageBuilderBuildCommands }

/-! ### Semantics of the generated pre_build if-chain

The conditionals run in mapping order over an initially unset ENV_TAG and
each matching pattern overwrites it.  `regexMatch branch pattern` abstracts
the bash extended-regex matcher of the `=~` operator. -/

def envTagAfterPreBuild (regexMatch : String → String → Bool)
    (branchMapping : List (String × String)) (branch : String) : Option String :=
  branchMapping.foldl
    (fun acc e => if regexMatch branch e.1 then some e.2 else acc) none

/-- Shell expansion of an optional environment variable: an unset variable
expands to the empty string. -/
def shellExpandOpt (v : Option String) : String := v.getD ""

/-- The ENV_TAG docker-tag command of the build phase after the shell
expands IMAGE_NAME, TAG, ECR_REPO_URI and ENV_TAG. -/
def expandedEnvTagDockerCommand (imageName tag ecrRepoUri : String)
    (envTag : Option String) : String :=
  "docker tag " ++ imageName ++ ":" ++ tag ++ " " ++ ecrRepoUri ++ ":" ++
    shellExpandOpt envTag

/-! ### The self-mutating meta-pipeline (PipelineStack) -/

structure AppStageModel where
  stageId : String
  branchName : String
  tags : List (String × String)
deriving Repr, DecidableEq

/-- The ApplicationStack instantiated by the PipelineAppStage of this
sub-stage (pipeline-app-stage constructs one ApplicationStack from the
stage's branchName). -/
def AppStageModel.appStack (st : AppStageModel) : EnvironmentStackModel :=
  applicationStack { branchName := st.branchName }

structure PipelineStackModel where
  synthInputRepo : String
  synthInputBranch : String
  synthCommands : List String
  appStages : List AppStageModel
deriving Repr, DecidableEq

/-- Shallow embedding of the current PipelineStack constructor
(lib/pipeline-stack, StackPipeline variant). -/
def pipelineStack : PipelineStackModel :=
  { synthInputRepo := "shustariov-andrey/cdk-nest-docker"
    synthInputBranch := "master"
    synthCommands := ["npm ci", "npm run build", "npx cdk synth"]
    appStages :=
      [ { stageId := "NestAppProd", branchName := "master"
          tags := [("environment", "prod")] }
      , { stageId := "NestAppStaging", branchName := "develop"
          tags := [("environment", "staging")] } ] }

/-- Shallow embedding of the CDKPipeline variant of PipelineStack present
in the repository (same fan-out, different construct ids). -/
def pipelineStackV2 : PipelineStackModel :=
  { synthInputRepo := "shustariov-andrey/cdk-nest-docker"
    synthInputBranch := "master"
    synthCommands := ["npm ci", "npm run build", "npx cdk synth"]
    appStages :=
      [ { stageId := "Prod", branchName := "master"
          tags := [("environment", "prod")] }
      , { stageId := "Stg", branchName := "develop"
          tags := [("environment", "staging")] } ] }

/-! ### The repository's test (test/aws-nest-docker.test.ts) -/

inductive MatchStyle
  | exactMatch
  | noReplaces
  | supersetMatch
deriving Repr, DecidableEq

structure TemplateAssertion where
  expectedResources : List (String × String)
  style : MatchStyle
deriving Repr, DecidableEq

/-- The single assertion of the repository's test: the tested stack's
template must match a template with an empty Resources section, with
MatchStyle.EXACT. -/
def emptyStackTestAssertion : TemplateAssertion :=
  { expectedResources := [], style := MatchStyle.exactMatch }

/-- The branch mapping supplied to ImageBuilderStack in
bin/aws-nest-docker, in object-literal order. -/
def binBranchMapping : List (String × String) :=
  [("master", "prod"), ("develop", "dev"), ("^release/.*", "uat")]

/-- The ImageBuilderStack props supplied in bin/aws-nest-docker. -/
def binImageBuilderProps : ImageBuilderStackProps :=
  { appName := "NestApp"
    repoName := "nest-cluster-repo"
    branchMapping := binBranchMapping
    gitOwner := "shustariov-andrey"
    gitRepo := "nest-docker-boilerplate" }

/-! ### Last-match-wins semantics of the if-chain -/

/-- Tag of the last mapping entry whose pattern matches the branch. -/
def lastMatchedTag (regexMatch : String → String → Bool)
    (branchMapping : List (String × String)) (branch : String) : Option String :=
  ((branchMapping.filter (fun e => regexMatch branch e.1)).getLast?).map Prod.snd

theorem foldl_envTag_eq (m : String → String → Bool) (b : String)
    (l : List (String × String)) (init : Option String) :
    l.foldl (fun acc e => if m b e.1 then some e.2 else acc) init =
      ((l.filter (fun e => m b e.1)).getLast?).elim init (fun e => some e.2) := by
  induction l using List.reverseRecOn with
  | nil => rfl
  | append_singleton t e ih =>
    rw [List.foldl_append]
    by_cases hm : m b e.1
    · simp [List.filter_append, hm, List.getLast?_concat]
    · simp [List.filter_append, hm, ih]

theorem envTag_eq_lastMatchedTag (m : String → String → Bool)
    (l : List (String × String)) (b : String) :
    envTagAfterPreBuild m l b = lastMatchedTag m l b := by
  rw [envTagAfterPreBuild, foldl_envTag_eq, lastMatchedTag]
  cases (l.filter (fun e => m b e.1)).getLast? <;> rfl

/-- C2: for every branch mapping supplied to ImageBuilderStack and every
branch name that matches exactly one pattern of the mapping, the
synthesized build script's pre_build commands (one generated conditional
per mapping entry) set ENV_TAG to the value mapped from that pattern. -/
theorem c2_unique_match_sets_env_tag (props : ImageBuilderStackProps)
    (m : String → String → Bool) (branch p t : String)
    (h : props.branchMapping.filter (fun e => m branch e.1) = [(p, t)]) :
    (∀ e ∈ props.branchMapping,
      envTagIfCommand e.1 e.2 ∈ (imageBuilderStack props).preBuildCommands) ∧
    envTagAfterPreBuild m props.branchMapping branch = some t := by
  constructor
  · intro e he
    simp only [imageBuilderStack, List.mem_append, List.mem_map]
    exact Or.inl (Or.inr ⟨e, he, rfl⟩)
  · rw [envTag_eq_lastMatchedTag, lastMatchedTag, h]
    rfl

/-- Witness for c2_unique_match_sets_env_tag: the branch mapping supplied
in bin/aws-nest-docker, branch `develop`, matching under literal branch
equality exactly the entry mapped to `dev`. -/
theorem c2_unique_match_sets_env_tag_witness :
    (binImageBuilderProps.branchMapping.filter
        (fun e => (fun b p => b == p) "develop" e.1) = [("develop", "dev")]) ∧
      ((∀ e ∈ binImageBuilderProps.branchMapping,
          envTagIfCommand e.1 e.2 ∈
            (imageBuilderStack binImageBuilderProps).preBuildCommands) ∧
        envTagAfterPreBuild (fun b p => b == p)
          binImageBuilderProps.branchMapping "develop" = some "dev") :=
  ⟨by decide,
    c2_unique_match_sets_env_tag binImageBuilderProps (fun b p => b == p)
      "develop" "develop" "dev" (by decide)⟩

/-- C3: for every branch mapping and every branch name matching two or
more patterns, the if-chain leaves ENV_TAG equal to the mapped value of
the last matching entry in evaluation order (last match wins). -/
theorem c3_last_match_wins (props : ImageBuilderStackProps)
    (m : String → String → Bool) (branch : String)
    (h : 2 ≤ (props.branchMapping.filter (fun e => m branch e.1)).length) :
    ∃ e, (props.branchMapping.filter (fun x => m branch x.1)).getLast? = some e ∧
      envTagAfterPreBuild m props.branchMapping branch = some e.2 := by
  have hne : props.branchMapping.filter (fun e => m branch e.1) ≠ [] := by
    intro hnil
    rw [hnil] at h
    exact absurd h (by decide)
  obtain ⟨e, he⟩ := Option.isSome_iff_exists.mp (List.getLast?_isSome.mpr hne)
  refine ⟨e, he, ?_⟩
  rw [envTag_eq_lastMatchedTag, lastMatchedTag, he]
  rfl

/-- Witness for c3_last_match_wins: a matcher under which branch
`release/master` matches both `master` (substring semantics of the
unanchored bash regex) and `^release/.*`; the last matching entry maps to
`uat` and wins. -/
theorem c3_last_match_wins_witness :
    (2 ≤ (binImageBuilderProps.branchMapping.filter
        (fun e => (fun _b p => p == "master" || p == "^release/.*")
          "release/master" e.1)).length) ∧
      (∃ e, (binImageBuilderProps.branchMapping.filter
          (fun x => (fun _b p => p == "master" || p == "^release/.*")
            "release/master" x.1)).getLast? = some e ∧
        envTagAfterPreBuild (fun _b p => p == "master" || p == "^release/.*")
          binImageBuilderProps.branchMapping "release/master" = some e.2) :=
  ⟨by decide,
    c3_last_match_wins binImageBuilderProps
      (fun _b p => p == "master" || p == "^release/.*") "release/master"
      (by decide)⟩

/-- C4: for every branch mapping and branch name matching none of the
patterns, ENV_TAG stays unset, and the ENV_TAG docker-tag command of the
build phase consequently expands to a reference to an empty tag (the
command ends in a bare colon). -/
theorem c4_no_match_leaves_env_tag_unset (props : ImageBuilderStackProps)
    (m : String → String → Bool) (branch imageName tag uri : String)
    (h : props.branchMapping.filter (fun e => m branch e.1) = []) :
    envTagAfterPreBuild m props.branchMapping branch = none ∧
    ("docker tag $IMAGE_NAME:$TAG $ECR_REPO_URI:$ENV_TAG" ∈
      (imageBuilderStack props).buildCommands) ∧
    expandedEnvTagDockerCommand imageName tag uri
        (envTagAfterPreBuild m props.branchMapping branch) =
      "docker tag " ++ imageName ++ ":" ++ tag ++ " " ++ uri ++ ":" := by
  have hnone : envTagAfterPreBuild m props.branchMapping branch = none := by
    rw [envTag_eq_lastMatchedTag, lastMatchedTag, h]
    rfl
  refine ⟨hnone, by simp [imageBuilderStack, imageBuilderBuildCommands], ?_⟩
  rw [hnone]
  apply String.ext
  simp [expandedEnvTagDockerCommand, shellExpandOpt, String.data_append]

/-- Witness for c4_no_match_leaves_env_tag_unset: branch `feature/x`
matches no entry of the mapping from bin/aws-nest-docker under literal
branch equality; the tagging command ends in a bare colon. -/
theorem c4_no_match_leaves_env_tag_unset_witness :
    (binImageBuilderProps.branchMapping.filter
        (fun e => (fun b p => b == p) "feature/x" e.1) = []) ∧
      (envTagAfterPreBuild (fun b p => b == p)
          binImageBuilderProps.branchMapping "feature/x" = none ∧
        ("docker tag $IMAGE_NAME:$TAG $ECR_REPO_URI:$ENV_TAG" ∈
          (imageBuilderStack binImageBuilderProps).buildCommands) ∧
        expandedEnvTagDockerCommand "nest-cluster-repo" "abc123" "uri.example/nest"
            (envTagAfterPreBuild (fun b p => b == p)
              binImageBuilderProps.branchMapping "feature/x") =
          "docker tag " ++ "nest-cluster-repo" ++ ":" ++ "abc123" ++ " " ++
            "uri.example/nest" ++ ":") :=
  ⟨by decide,
    c4_no_match_leaves_env_tag_unset binImageBuilderProps
      (fun b p => b == p) "feature/x" "nest-cluster-repo" "abc123"
      "uri.example/nest" (by decide)⟩

/-! ### String-level printf lemmas -/

theorem printfRun_append (pre rest arg : String) (h : '%' ∉ pre.data) :
    printfRun (pre ++ rest) arg = pre ++ printfRun rest arg := by
  apply String.ext
  simp only [printfRun, String.data_append]
  exact printfAux_append_of_not_mem arg.data pre.data rest.data h

theorem printfRun_of_no_percent (s arg : String) (h : '%' ∉ s.data) :
    printfRun s arg = s :=
  String.ext (printfAux_of_not_mem arg.data s.data h)

theorem printfRun_subst (rest arg : String) :
    printfRun ("%s" ++ rest) arg = arg ++ printfRun rest "" := by
  apply String.ext
  simp only [printfRun, String.data_append]
  exact printfAux_subst arg.data rest.data

/-- Decomposition of the manifest content written by the generated
printf command, for a container name free of printf conversions. -/
theorem manifestFileContent_decomp (c tagExpr uri : String)
    (hc : '%' ∉ c.data) :
    manifestFileContent c tagExpr uri =
      "[\x7b\"name\":\"" ++ c ++ "\",\"imageUri\":\"" ++
        (uri ++ ":" ++ tagExpr) ++ "\"\x7d]" := by
  have hsuf : ("\",\"imageUri\":\"%s\"\x7d]" : String) =
      "\",\"imageUri\":\"" ++ ("%s" ++ "\"\x7d]") := rfl
  rw [manifestFileContent, imageDefinitionsFormat, hsuf, String.append_assoc,
    printfRun_append _ _ _ (by decide),
    printfRun_append _ _ _ hc,
    printfRun_append _ _ _ (by decide),
    printfRun_subst,
    printfRun_of_no_percent _ _ (by decide)]
  apply String.ext
  simp [String.data_append, List.append_assoc]

/-- Rendering of a single-entry manifest coincides with the decomposition
above. -/
theorem renderImageDefinitions_singleton (e : ImageDefinition) :
    renderImageDefinitions [e] =
      "[\x7b\"name\":\"" ++ e.name ++ "\",\"imageUri\":\"" ++
        e.imageUri ++ "\"\x7d]" := by
  apply String.ext
  simp [renderImageDefinitions, renderImageDefinitionsBody,
    renderImageDefinition, String.data_append, List.append_assoc]

/-- C1: for every synthesized deploy pipeline (an ECSEnvironmentStack for
any props and an ApplicationStack for any props), the build stage's
generated script writes an imagedefinitions.json containing exactly one
entry whose name is the task definition's container name and whose
imageUri is the registry URI joined with a colon and the resolved
deployment tag.  The hypotheses exclude printf conversions inside the
interpolated container names. -/
theorem c1_manifest_single_entry (p : ECSEnvironmentStackProps)
    (q : ApplicationStackProps) (uri : String)
    (hp : '%' ∉ (ecsEnvironmentStack p).container.containerName.data) :
    ((ecsEnvironmentStack p).manifestContent uri =
      renderImageDefinitions
        [{ name := (ecsEnvironmentStack p).container.containerName
           imageUri := uri ++ ":" ++ (ecsEnvironmentStack p).container.imageTag }]) ∧
    ((applicationStack q).manifestContent uri =
      renderImageDefinitions
        [{ name := (applicationStack q).container.containerName
           imageUri := uri ++ ":" ++ (applicationStack q).container.imageTag }]) := by
  have hq : '%' ∉ (applicationStack q).container.containerName.data := by
    show '%' ∉ (("NestApp" ++ "-Container" : String)).data
    decide
  constructor
  · rw [EnvironmentStackModel.manifestContent,
      manifestFileContent_decomp _ _ _ hp, renderImageDefinitions_singleton]
    rfl
  · rw [EnvironmentStackModel.manifestContent,
      manifestFileContent_decomp _ _ _ hq, renderImageDefinitions_singleton]
    rfl

/-- Witness for c1_manifest_single_entry: the prod ECSEnvironmentStack
props from bin/aws-nest-docker and an ApplicationStack on master, at a
concrete registry URI. -/
theorem c1_manifest_single_entry_witness :
    ('%' ∉ (ecsEnvironmentStack
        { appName := "NestApp", imageTag := "prod"
          ecrRepoName := "nest-cluster-repo"
          vpcCidr := "10.0.0.0/16" }).container.containerName.data) ∧
      ((ecsEnvironmentStack
          { appName := "NestApp", imageTag := "prod"
            ecrRepoName := "nest-cluster-repo"
            vpcCidr := "10.0.0.0/16" }).manifestContent "uri.example/nest" =
        renderImageDefinitions
          [{ name := "NestApp-prod-Container"
             imageUri := "uri.example/nest" ++ ":" ++ "prod" }] ∧
        (applicationStack { branchName := "master" }).manifestContent
            "uri.example/nest" =
          renderImageDefinitions
            [{ name := "NestApp-Container"
               imageUri := "uri.example/nest" ++ ":" ++ "latest" }]) :=
  ⟨by decide,
    c1_manifest_single_entry
      { appName := "NestApp", imageTag := "prod"
        ecrRepoName := "nest-cluster-repo", vpcCidr := "10.0.0.0/16" }
      { branchName := "master" } "uri.example/nest" (by decide)⟩

/-! ### Invariant-style claims over the stack constructors -/

/-- Predicate of C5 on an environment stack: capacity bounds [1, 4], 70%
target utilization for cpu and memory, 60-second cooldowns both ways. -/
def autoScalingAsSpecified (s : EnvironmentStackModel) : Prop :=
  s.scalingBounds = { minCapacity := 1, maxCapacity := 4 } ∧
  s.cpuScaling = { targetUtilizationPercent := 70
                   scaleInCooldownSeconds := 60
                   scaleOutCooldownSeconds := 60 } ∧
  s.memoryScaling = { targetUtilizationPercent := 70
                      scaleInCooldownSeconds := 60
                      scaleOutCooldownSeconds := 60 }

/-- C5: every environment stack instance, ECSEnvironmentStack and
ApplicationStack alike, specifies capacity bounds of minimum 1 and maximum
4 instances, 70% target utilization for both CPU and memory and 60-second
scale-in and scale-out cooldowns. -/
theorem c5_autoscaling_bounds (p : ECSEnvironmentStackProps)
    (q : ApplicationStackProps) :
    autoScalingAsSpecified (ecsEnvironmentStack p) ∧
      autoScalingAsSpecified (applicationStack q) :=
  ⟨⟨rfl, rfl, rfl⟩, ⟨rfl, rfl, rfl⟩⟩

/-- Predicate of C6 on an environment stack: the trigger rule matches
exactly ECR push events with action-type PUSH, image-tag the stack's
deployment tag (the tag its task definition's container image uses),
repository-name the stack's registry, result SUCCESS, and targets the
stack's deploy pipeline. -/
def triggerRuleAsSpecified (s : EnvironmentStackModel) : Prop :=
  s.trigger = { eventSource := ["aws.ecr"]
                actionType := ["PUSH"]
                imageTag := [s.container.imageTag]
                repositoryName := [s.ecrRepositoryName]
                result := ["SUCCESS"]
                targetPipelineName := s.pipeline.pipelineName }

/-- C6: for every synthesized deploy pipeline, the triggering event rule
matches exactly ECR push events filtered by action-type PUSH, image-tag the
stack's target deployment tag, repository-name the stack's registry,
result SUCCESS, and forwards matching events to start the pipeline. -/
theorem c6_trigger_rule (p : ECSEnvironmentStackProps)
    (q : ApplicationStackProps) :
    triggerRuleAsSpecified (ecsEnvironmentStack p) ∧
      triggerRuleAsSpecified (applicationStack q) :=
  ⟨rfl, rfl⟩

/-- Predicate of C7 on a deploy pipeline: exactly the three stages Source,
Build, Deploy in order, one action per stage, and no authored restart on
update. -/
def pipelineShapeAsSpecified (pl : PipelineModel) : Prop :=
  pl.stages.map StageModel.stageName = ["Source", "Build", "Deploy"] ∧
  (∀ st ∈ pl.stages, st.actionNames.length = 1) ∧
  pl.restartExecutionOnUpdate = false

/-- C7: every synthesized delivery pipeline declares exactly three stages
Source, Build, Deploy in that order, one action per stage, and authors no
automatic retry (restartExecutionOnUpdate is false). -/
theorem c7_pipeline_stages (p : ECSEnvironmentStackProps)
    (q : ApplicationStackProps) :
    pipelineShapeAsSpecified (ecsEnvironmentStack p).pipeline ∧
      pipelineShapeAsSpecified (applicationStack q).pipeline := by
  constructor <;>
    exact ⟨rfl, by intro st hst; fin_cases hst <;> rfl, rfl⟩

/-- C8: the self-mutating meta-pipeline synthesizes from the master branch
of the infrastructure repository and fans out to one application sub-stage
per target environment: a prod stage built from branch master tagged
environment=prod and a staging stage built from branch develop tagged
environment=staging.  Both variants of PipelineStack present in the
repository agree. -/
theorem c8_meta_pipeline_fanout :
    (pipelineStack.synthInputRepo = "shustariov-andrey/cdk-nest-docker" ∧
      pipelineStack.synthInputBranch = "master" ∧
      pipelineStack.appStages.map
          (fun st => (st.branchName, st.tags)) =
        [("master", [("environment", "prod")]),
         ("develop", [("environment", "staging")])]) ∧
    (pipelineStackV2.synthInputBranch = "master" ∧
      pipelineStackV2.appStages.map
          (fun st => (st.branchName, st.tags)) =
        [("master", [("environment", "prod")]),
         ("develop", [("environment", "staging")])]) :=
  ⟨⟨rfl, rfl, rfl⟩, ⟨rfl, rfl⟩⟩

/-- C9 counterexample: the repository's test does not assert a superset
match; its match style is EXACT. -/
theorem c9_not_superset_counterexample :
    ¬ (emptyStackTestAssertion.style = MatchStyle.supersetMatch) := by
  decide

/-- C9 amended: the repository's test asserts that the synthesized
template of the tested stack matches the empty template exactly, i.e. the
tested stack must synthesize to an empty resource set. -/
theorem c9_test_exact_empty :
    emptyStackTestAssertion.style = MatchStyle.exactMatch ∧
      emptyStackTestAssertion.expectedResources = [] :=
  ⟨rfl, rfl⟩

/-- Predicate of C10 on an environment stack: tasks in public subnets with
public IPs, a VPC with zero NAT gateways, a public load balancer on port
80, and container port 3000. -/
def publicNetworkingAsSpecified (s : EnvironmentStackModel) : Prop :=
  s.vpc.natGateways = 0 ∧
  s.service.taskSubnetKind = SubnetKind.publicSubnet ∧
  s.service.assignPublicIp = true ∧
  s.service.publicLoadBalancer = true ∧
  s.service.listenerPort = 80 ∧
  s.container.containerPort = 3000

/-- C10: every environment stack places its service tasks in public
subnets with public IPs, declares a VPC with zero NAT gateways, and
exposes the service publicly through a load balancer listening on port 80
while the container's declared port is 3000. -/
theorem c10_public_networking (p : ECSEnvironmentStackProps)
    (q : ApplicationStackProps) :
    publicNetworkingAsSpecified (ecsEnvironmentStack p) ∧
      publicNetworkingAsSpecified (applicationStack q) :=
  ⟨⟨rfl, rfl, rfl, rfl, rfl, rfl⟩, ⟨rfl, rfl, rfl, rfl, rfl, rfl⟩⟩

end CdkNestDocker
